import Mathlib

/-!
Shallow embedding of the iot-device-simulator source (src/simulator.ts).

Numeric values are modelled as rationals. Calls to Math.random, the
captured wall-clock timestamp and the outcome of the HTTP transport are
passed as explicit parameters, and mutation of the device object becomes
explicit state passing: a method that mutates state returns the updated
state together with its result.
-/

/-- Registry entry, matching the DeviceConfig interface of the source. -/
structure DeviceConfig where
  deviceId : Nat
  serial : String
  name : String
  location : String
  deriving Repr, DecidableEq

/-- The fixed metadata block inside a telemetry payload. -/
structure PayloadMeta where
  firmware : String
  status : String
  deriving Repr, DecidableEq

/-- Wire payload, matching the TelemetryPayload interface of the source. -/
structure TelemetryPayload where
  deviceId : Nat
  ts : String
  temperature : ℚ
  humidity : ℚ
  battery : ℚ
  payload : PayloadMeta
  deriving Repr, DecidableEq

/-- State of one SimulatedDevice instance: its config, token and the
three simulation-state fields baseTemp, baseHum, currentBattery. -/
structure SimulatedDevice where
  config : DeviceConfig
  token : String
  baseTemp : ℚ
  baseHum : ℚ
  currentBattery : ℚ
  deriving Repr, DecidableEq

/-- The SimulatedDevice constructor. The argument r is the Math.random
draw used for the initial battery, a value in [0, 1); the initial
battery is Math.floor of r * 100. -/
def mkSimulatedDevice (config : DeviceConfig) (token : String) (r : ℚ) :
    SimulatedDevice :=
  let seed := config.deviceId
  { config := config
    token := token
    baseTemp := 20 + ((seed % 10 : ℕ) : ℚ)
    baseHum := 40 + ((seed % 15 : ℕ) : ℚ)
    currentBattery := ((⌊r * 100⌋ : ℤ) : ℚ) }

/-- The variance arrow function: 0.8 + Math.random() * 0.4, with the
random draw u in [0, 1) passed explicitly. -/
def variance (u : ℚ) : ℚ := 0.8 + u * 0.4

/-- parseFloat(x.toFixed(1)): round to one decimal place. toFixed picks
the closest multiple of 1/10, ties going to the larger value, which is
the rounding of Mathlib round. -/
def toFixed1 (x : ℚ) : ℚ := ((round (x * 10) : ℤ) : ℚ) / 10

/-- generateTelemetry. uT and uH are the Math.random draws made by the
two variance() calls, ts is the captured timestamp string. Returns the
updated device state paired with the produced payload. -/
def generateTelemetry (d : SimulatedDevice) (uT uH : ℚ) (ts : String) :
    SimulatedDevice × TelemetryPayload :=
  let temp := toFixed1 (d.baseTemp * variance uT)
  let hum := toFixed1 (d.baseHum * variance uH)
  let b := d.currentBattery - 0.35
  let b2 := if b ≤ 0 then (100 : ℚ) else b
  ({ d with currentBattery := b2 },
   { deviceId := d.config.deviceId
     ts := ts
     temperature := temp
     humidity := hum
     battery := toFixed1 b2
     payload := { firmware := "1.0.4", status := "ok" } })

/-- One call descriptor for generateTelemetry: the two random draws and
the timestamp of that call. -/
structure GenCall where
  uT : ℚ
  uH : ℚ
  ts : String
  deriving Repr, DecidableEq

/-- Iterate generateTelemetry over a sequence of calls, keeping the
evolving device state. -/
def runGenerate (d : SimulatedDevice) : List GenCall → SimulatedDevice
  | [] => d
  | c :: rest => runGenerate (generateTelemetry d c.uT c.uH c.ts).1 rest

/-- Log lines emitted by the simulator, kept structured: the success
line of pushData, the error line of its catch block, and the missing
token warning of the init loop. -/
inductive LogLine where
  | sent (name location : String) (deviceId : Nat) (t h b : ℚ) (ts : String)
  | sendError (name : String) (deviceId : Nat) (message : String)
  | warnNoToken (deviceId : Nat) (envKey : String)
  deriving Repr, DecidableEq

/-- pushData. The axios.post call is modelled by the post argument,
mapping the payload and the x-device-token header value to success or an
error message; the try/catch of the source is the match on that
outcome. The Except result type records whether an exception escapes
pushData to its caller. -/
def pushData (d : SimulatedDevice) (uT uH : ℚ) (ts : String)
    (post : TelemetryPayload → String → Except String Unit) :
    Except String (SimulatedDevice × LogLine) :=
  let r := generateTelemetry d uT uH ts
  match post r.2 d.token with
  | .ok _ => .ok (r.1, .sent d.config.name d.config.location r.2.deviceId
      r.2.temperature r.2.humidity r.2.battery r.2.ts)
  | .error msg => .ok (r.1, .sendError d.config.name r.2.deviceId msg)

/-- One fleet-wide tick: devices.forEach(d => d.pushData()). env
supplies each device with its random draws, timestamp and transport
outcome for this tick. An Except.error result would mean some pushData
call raised to the scheduler. -/
def tick (fleet : List SimulatedDevice)
    (env : SimulatedDevice →
      ℚ × ℚ × String × (TelemetryPayload → String → Except String Unit)) :
    Except String (List (SimulatedDevice × LogLine)) :=
  match fleet with
  | [] => .ok []
  | d :: rest => do
    let r ← pushData d (env d).1 (env d).2.1 (env d).2.2.1 (env d).2.2.2
    let rs ← tick rest env
    .ok (r :: rs)

/-- The environment variable key looked up for a device. -/
def envTokenKey (deviceId : Nat) : String :=
  "TOKEN_DEVICE_" ++ toString deviceId

/-- Body of the deviceConfigs.forEach init loop: resolve the token from
the environment; if absent, warn and skip; otherwise construct the
device and push it onto the list. -/
def initStep (env : String → Option String) (rand : DeviceConfig → ℚ)
    (acc : List SimulatedDevice × List LogLine) (config : DeviceConfig) :
    List SimulatedDevice × List LogLine :=
  match env (envTokenKey config.deviceId) with
  | none => (acc.1, acc.2 ++ [LogLine.warnNoToken config.deviceId
      (envTokenKey config.deviceId)])
  | some token =>
      (acc.1 ++ [mkSimulatedDevice config token (rand config)], acc.2)

/-- The registry instantiation loop over deviceConfigs, producing the
devices list and the warnings it logged. rand gives the Math.random
draw used for each constructed device. -/
def initDevices (env : String → Option String) (rand : DeviceConfig → ℚ)
    (configs : List DeviceConfig) : List SimulatedDevice × List LogLine :=
  configs.foldl (initStep env rand) ([], [])

/-- The GET /health handler: the status string and the activeDevices
count, which is devices.length. -/
def healthResponse (devices : List SimulatedDevice) : String × Nat :=
  ("running", devices.length)

/-- UPDATE_INTERVAL_MS constant of the source. -/
def UPDATE_INTERVAL_MS : Nat := 2000

/-- A started process: the devices list and init warnings, the served
health route and the scheduled tick interval. Produced only when
startup succeeds. -/
structure RunningSystem where
  devices : List SimulatedDevice
  logs : List LogLine
  healthServed : Bool
  tickIntervalMs : Nat
  deriving Repr

/-- Module-level startup of the source in order: fs.readFileSync on
devices.json (readFile, error when the file is missing), JSON.parse
(parse, error when the text is unparseable), the device init loop, then
the health route and the simulation loop. A thrown exception aborts the
module before anything later in it runs, so an error in either of the
first two steps yields no RunningSystem at all. -/
def startup (readFile : Except String String)
    (parse : String → Except String (List DeviceConfig))
    (env : String → Option String) (rand : DeviceConfig → ℚ) :
    Except String RunningSystem :=
  match readFile with
  | .error e => .error e
  | .ok raw =>
    match parse raw with
    | .error e => .error e
    | .ok deviceConfigs =>
      let r := initDevices env rand deviceConfigs
      .ok { devices := r.1
            logs := r.2
            healthServed := true
            tickIntervalMs := UPDATE_INTERVAL_MS }

/-- Tick schedule of startSimulation: one immediate run at time 0, then
setInterval with period UPDATE_INTERVAL_MS, so tick number n fires n
periods after startup. -/
def tickTime (n : Nat) : Nat := n * UPDATE_INTERVAL_MS

/-! ## Helper lemmas -/

/-- One generateTelemetry call leaves the battery in (0, 100] whenever
the battery beforehand is below 100.35. -/
theorem generateTelemetry_battery_step (d : SimulatedDevice) (uT uH : ℚ)
    (ts : String) (h : d.currentBattery < 100.35) :
    0 < ((generateTelemetry d uT uH ts).1).currentBattery ∧
      ((generateTelemetry d uT uH ts).1).currentBattery ≤ 100 := by
  unfold generateTelemetry
  dsimp only
  split_ifs with hb
  · norm_num
  · push_neg at hb
    constructor <;> linarith

/-- runGenerate preserves the bound 100.35 and, after at least one
call, puts the battery in (0, 100]. -/
theorem runGenerate_battery_inv (calls : List GenCall) (d : SimulatedDevice)
    (h : d.currentBattery < 100.35) :
    (runGenerate d calls).currentBattery < 100.35 ∧
      (calls ≠ [] → 0 < (runGenerate d calls).currentBattery ∧
        (runGenerate d calls).currentBattery ≤ 100) := by
  induction calls generalizing d with
  | nil => exact ⟨h, fun hne => absurd rfl hne⟩
  | cons c rest ih =>
    have hstep := generateTelemetry_battery_step d c.uT c.uH c.ts h
    have hlt : ((generateTelemetry d c.uT c.uH c.ts).1).currentBattery
        < 100.35 := by linarith [hstep.2]
    have hrun : runGenerate d (c :: rest)
        = runGenerate (generateTelemetry d c.uT c.uH c.ts).1 rest := rfl
    have ihr := ih (generateTelemetry d c.uT c.uH c.ts).1 hlt
    refine ⟨by rw [hrun]; exact ihr.1, fun _ => ?_⟩
    cases rest with
    | nil => rw [hrun]; exact hstep
    | cons c2 rest2 => rw [hrun]; exact ihr.2 (by simp)

/-! ## Claim theorems -/

/-- C1: for a device whose battery starts in [0, 100), after every
nonempty sequence of generateTelemetry calls the internal battery
satisfies 0 < batteryLevel and batteryLevel ≤ 100. Every intermediate
point of a longer sequence is itself the end of a nonempty sequence, so
the invariant holds after each call. -/
theorem battery_invariant_after_calls (d : SimulatedDevice)
    (h0 : 0 ≤ d.currentBattery) (h1 : d.currentBattery < 100)
    (calls : List GenCall) (hne : calls ≠ []) :
    0 < (runGenerate d calls).currentBattery ∧
      (runGenerate d calls).currentBattery ≤ 100 :=
  (runGenerate_battery_inv calls d (by linarith)).2 hne

theorem battery_invariant_after_calls_witness :
    0 < (runGenerate ⟨⟨7, "S7", "Sensor7", "Lab"⟩, "abc123", 27, 47, 50⟩
        [⟨0, 0, "t0"⟩, ⟨1/2, 1/2, "t1"⟩]).currentBattery ∧
      (runGenerate ⟨⟨7, "S7", "Sensor7", "Lab"⟩, "abc123", 27, 47, 50⟩
        [⟨0, 0, "t0"⟩, ⟨1/2, 1/2, "t1"⟩]).currentBattery ≤ 100 :=
  battery_invariant_after_calls _ (by norm_num) (by norm_num) _ (by simp)

/-- C2: when the battery is at most 0.35, the next generateTelemetry
call sets the internal battery to exactly 100 and returns a payload
whose battery field is exactly 100; the decrement that triggered the
reset is fully replaced by the reset value. -/
theorem battery_reset_postcondition (d : SimulatedDevice) (uT uH : ℚ)
    (ts : String) (h : d.currentBattery ≤ 0.35) :
    ((generateTelemetry d uT uH ts).1).currentBattery = 100 ∧
      ((generateTelemetry d uT uH ts).2).battery = 100 := by
  unfold generateTelemetry
  dsimp only
  have hb : d.currentBattery - 0.35 ≤ 0 := by linarith
  rw [if_pos hb]
  refine ⟨rfl, ?_⟩
  show toFixed1 100 = 100
  norm_num [toFixed1, round_eq]

theorem battery_reset_postcondition_witness :
    ((generateTelemetry ⟨⟨7, "S7", "Sensor7", "Lab"⟩, "abc123", 27, 47,
        (1/5 : ℚ)⟩ 0 0 "t0").1).currentBattery = 100 ∧
      ((generateTelemetry ⟨⟨7, "S7", "Sensor7", "Lab"⟩, "abc123", 27, 47,
        (1/5 : ℚ)⟩ 0 0 "t0").2).battery = 100 :=
  battery_reset_postcondition _ 0 0 "t0" (by norm_num)

/-- C3: construction derives baseTemp = 20 + (deviceId mod 10) and
baseHum = 40 + (deviceId mod 15), so any two constructions whose
configs carry the same deviceId agree on both base values, whatever
their tokens and initial battery draws. -/
theorem base_value_derivation (c1 c2 : DeviceConfig) (t1 t2 : String)
    (r1 r2 : ℚ) (h : c1.deviceId = c2.deviceId) :
    (mkSimulatedDevice c1 t1 r1).baseTemp = 20 + ((c1.deviceId % 10 : ℕ) : ℚ) ∧
      (mkSimulatedDevice c1 t1 r1).baseHum = 40 + ((c1.deviceId % 15 : ℕ) : ℚ) ∧
      (mkSimulatedDevice c1 t1 r1).baseTemp = (mkSimulatedDevice c2 t2 r2).baseTemp ∧
      (mkSimulatedDevice c1 t1 r1).baseHum = (mkSimulatedDevice c2 t2 r2).baseHum := by
  unfold mkSimulatedDevice
  dsimp only
  rw [h]
  exact ⟨rfl, rfl, rfl, rfl⟩

theorem base_value_derivation_witness :
    (mkSimulatedDevice ⟨7, "S7", "Sensor7", "Lab"⟩ "abc123" 0).baseTemp
        = 20 + ((7 % 10 : ℕ) : ℚ) ∧
      (mkSimulatedDevice ⟨7, "S7", "Sensor7", "Lab"⟩ "abc123" 0).baseHum
        = 40 + ((7 % 15 : ℕ) : ℚ) ∧
      (mkSimulatedDevice ⟨7, "S7", "Sensor7", "Lab"⟩ "abc123" 0).baseTemp
        = (mkSimulatedDevice ⟨7, "X9", "Other7", "Hall"⟩ "zzz" (1/2)).baseTemp ∧
      (mkSimulatedDevice ⟨7, "S7", "Sensor7", "Lab"⟩ "abc123" 0).baseHum
        = (mkSimulatedDevice ⟨7, "X9", "Other7", "Hall"⟩ "zzz" (1/2)).baseHum :=
  base_value_derivation _ _ _ _ _ _ rfl

/-- C8: generateTelemetry changes no device-state field except
currentBattery: config, token, baseTemp and baseHum are unchanged. -/
theorem generateTelemetry_frame (d : SimulatedDevice) (uT uH : ℚ)
    (ts : String) :
    ((generateTelemetry d uT uH ts).1).config = d.config ∧
      ((generateTelemetry d uT uH ts).1).token = d.token ∧
      ((generateTelemetry d uT uH ts).1).baseTemp = d.baseTemp ∧
      ((generateTelemetry d uT uH ts).1).baseHum = d.baseHum := by
  unfold generateTelemetry
  exact ⟨rfl, rfl, rfl, rfl⟩

/-- toFixed1 moves a value by at most one half of the last kept decimal
place, that is by at most 1/20. -/
theorem toFixed1_bounds (x : ℚ) :
    x - 1/20 ≤ toFixed1 x ∧ toFixed1 x ≤ x + 1/20 := by
  have h := abs_sub_round (x * 10)
  rw [abs_sub_le_iff] at h
  unfold toFixed1
  exact ⟨by linarith [h.1, h.2], by linarith [h.1, h.2]⟩

/-- The variance factor built from a draw in [0, 1) lies in [0.8, 1.2),
and scaling a nonnegative base by it, then rounding to one decimal,
stays within [0.8 base, 1.2 base] up to 1/20. -/
theorem toFixed1_variance_bounds (base u : ℚ) (hb : 0 ≤ base)
    (h0 : 0 ≤ u) (h1 : u < 1) :
    0.8 * base - 1/20 ≤ toFixed1 (base * variance u) ∧
      toFixed1 (base * variance u) ≤ 1.2 * base + 1/20 := by
  have hv0 : (0.8 : ℚ) ≤ variance u := by unfold variance; linarith
  have hv1 : variance u ≤ 1.2 := by unfold variance; linarith
  have hlo : base * 0.8 ≤ base * variance u :=
    mul_le_mul_of_nonneg_left hv0 hb
  have hhi : base * variance u ≤ base * 1.2 :=
    mul_le_mul_of_nonneg_left hv1 hb
  have ht := toFixed1_bounds (base * variance u)
  exact ⟨by linarith [ht.1], by linarith [ht.2]⟩

/-- C4: on a constructed device, with both variance draws quantified
over [0, 1) (so both variance factors range over [0.8, 1.2)), the
returned temperature lies in [0.8 baseTemp, 1.2 baseTemp] and the
returned humidity in [0.8 baseHum, 1.2 baseHum], each within the one
decimal place rounding tolerance of 1/20. -/
theorem reading_range (c : DeviceConfig) (tok : String) (r uT uH : ℚ)
    (ts : String) (hT0 : 0 ≤ uT) (hT1 : uT < 1)
    (hH0 : 0 ≤ uH) (hH1 : uH < 1) :
    0.8 * (mkSimulatedDevice c tok r).baseTemp - 1/20 ≤
        ((generateTelemetry (mkSimulatedDevice c tok r) uT uH ts).2).temperature ∧
      ((generateTelemetry (mkSimulatedDevice c tok r) uT uH ts).2).temperature ≤
        1.2 * (mkSimulatedDevice c tok r).baseTemp + 1/20 ∧
      0.8 * (mkSimulatedDevice c tok r).baseHum - 1/20 ≤
        ((generateTelemetry (mkSimulatedDevice c tok r) uT uH ts).2).humidity ∧
      ((generateTelemetry (mkSimulatedDevice c tok r) uT uH ts).2).humidity ≤
        1.2 * (mkSimulatedDevice c tok r).baseHum + 1/20 := by
  have hbt : (0 : ℚ) ≤ (mkSimulatedDevice c tok r).baseTemp := by
    unfold mkSimulatedDevice; dsimp only; positivity
  have hbh : (0 : ℚ) ≤ (mkSimulatedDevice c tok r).baseHum := by
    unfold mkSimulatedDevice; dsimp only; positivity
  have htb := toFixed1_variance_bounds (mkSimulatedDevice c tok r).baseTemp
    uT hbt hT0 hT1
  have hhb := toFixed1_variance_bounds (mkSimulatedDevice c tok r).baseHum
    uH hbh hH0 hH1
  have htemp : ((generateTelemetry (mkSimulatedDevice c tok r) uT uH ts).2).temperature
      = toFixed1 ((mkSimulatedDevice c tok r).baseTemp * variance uT) := rfl
  have hhum : ((generateTelemetry (mkSimulatedDevice c tok r) uT uH ts).2).humidity
      = toFixed1 ((mkSimulatedDevice c tok r).baseHum * variance uH) := rfl
  rw [htemp, hhum]
  exact ⟨htb.1, htb.2, hhb.1, hhb.2⟩

theorem reading_range_witness :
    0.8 * (mkSimulatedDevice ⟨7, "S7", "Sensor7", "Lab"⟩ "abc123" 0).baseTemp - 1/20 ≤
        ((generateTelemetry (mkSimulatedDevice ⟨7, "S7", "Sensor7", "Lab"⟩ "abc123" 0)
          (1/2) (1/4) "t0").2).temperature ∧
      ((generateTelemetry (mkSimulatedDevice ⟨7, "S7", "Sensor7", "Lab"⟩ "abc123" 0)
          (1/2) (1/4) "t0").2).temperature ≤
        1.2 * (mkSimulatedDevice ⟨7, "S7", "Sensor7", "Lab"⟩ "abc123" 0).baseTemp + 1/20 ∧
      0.8 * (mkSimulatedDevice ⟨7, "S7", "Sensor7", "Lab"⟩ "abc123" 0).baseHum - 1/20 ≤
        ((generateTelemetry (mkSimulatedDevice ⟨7, "S7", "Sensor7", "Lab"⟩ "abc123" 0)
          (1/2) (1/4) "t0").2).humidity ∧
      ((generateTelemetry (mkSimulatedDevice ⟨7, "S7", "Sensor7", "Lab"⟩ "abc123" 0)
          (1/2) (1/4) "t0").2).humidity ≤
        1.2 * (mkSimulatedDevice ⟨7, "S7", "Sensor7", "Lab"⟩ "abc123" 0).baseHum + 1/20 :=
  reading_range _ _ 0 (1/2) (1/4) "t0" (by norm_num) (by norm_num)
    (by norm_num) (by norm_num)

/-- C9: the tick schedule fires once immediately at startup, at time 0,
and thereafter exactly once per fixed period of UPDATE_INTERVAL_MS,
whose value is 2000 ms; distinct tick numbers fire at distinct times. -/
theorem tick_schedule_cadence (n m : Nat) (h : tickTime m = tickTime n) :
    UPDATE_INTERVAL_MS = 2000 ∧ tickTime 0 = 0 ∧
      tickTime (n + 1) = tickTime n + 2000 ∧ m = n := by
  refine ⟨rfl, rfl, ?_, ?_⟩
  · unfold tickTime UPDATE_INTERVAL_MS; ring
  · unfold tickTime UPDATE_INTERVAL_MS at h; omega

theorem tick_schedule_cadence_witness :
    UPDATE_INTERVAL_MS = 2000 ∧ tickTime 0 = 0 ∧
      tickTime (3 + 1) = tickTime 3 + 2000 ∧ 3 = 3 :=
  tick_schedule_cadence 3 3 rfl

/-- C10: for any construction draw r in [0, 1) the initial battery is
the whole number floor(r * 100), hence an integer between 0 and 99; at
r = 0 it is exactly 0, so strict positivity of the battery is not
guaranteed before the first generateTelemetry call. -/
theorem initial_battery_floor (c : DeviceConfig) (tok : String) (r : ℚ)
    (h0 : 0 ≤ r) (h1 : r < 1) :
    (∃ k : ℕ, k ≤ 99 ∧ (mkSimulatedDevice c tok r).currentBattery = (k : ℚ)) ∧
      (mkSimulatedDevice c tok 0).currentBattery = 0 ∧
      ¬ (0 < (mkSimulatedDevice c tok 0).currentBattery) := by
  have hf0 : (0 : ℤ) ≤ ⌊r * 100⌋ := by
    apply Int.floor_nonneg.mpr; positivity
  have hf1 : ⌊r * 100⌋ < 100 := by
    apply Int.floor_lt.mpr; push_cast; linarith
  refine ⟨⟨⌊r * 100⌋.toNat, by omega, ?_⟩, ?_, ?_⟩
  · show ((⌊r * 100⌋ : ℤ) : ℚ) = _
    exact_mod_cast congrArg (fun z : ℤ => (z : ℚ)) (Int.toNat_of_nonneg hf0).symm
  · show ((⌊(0 : ℚ) * 100⌋ : ℤ) : ℚ) = 0
    norm_num
  · show ¬ (0 < ((⌊(0 : ℚ) * 100⌋ : ℤ) : ℚ))
    norm_num

theorem initial_battery_floor_witness :
    (∃ k : ℕ, k ≤ 99 ∧
        (mkSimulatedDevice ⟨7, "S7", "Sensor7", "Lab"⟩ "abc123" (1/2)).currentBattery
          = (k : ℚ)) ∧
      (mkSimulatedDevice ⟨7, "S7", "Sensor7", "Lab"⟩ "abc123" 0).currentBattery = 0 ∧
      ¬ (0 < (mkSimulatedDevice ⟨7, "S7", "Sensor7", "Lab"⟩ "abc123" 0).currentBattery) :=
  initial_battery_floor _ _ (1/2) (by norm_num) (by norm_num)

/-- pushData returns Except.ok for every transport outcome: both the
success branch and the catch branch produce a result. -/
theorem pushData_ok (d : SimulatedDevice) (uT uH : ℚ) (ts : String)
    (post : TelemetryPayload → String → Except String Unit) :
    ∃ r, pushData d uT uH ts post = Except.ok r := by
  unfold pushData
  dsimp only
  cases hp : post (generateTelemetry d uT uH ts).2 d.token with
  | ok u => exact ⟨_, rfl⟩
  | error m => exact ⟨_, rfl⟩

/-- A tick never fails and produces one result per fleet member. -/
theorem tick_ok (fleet : List SimulatedDevice)
    (env : SimulatedDevice →
      ℚ × ℚ × String × (TelemetryPayload → String → Except String Unit)) :
    ∃ rs, tick fleet env = Except.ok rs ∧ rs.length = fleet.length := by
  induction fleet with
  | nil => exact ⟨[], rfl, rfl⟩
  | cons d rest ih =>
    obtain ⟨r, hr⟩ := pushData_ok d (env d).1 (env d).2.1 (env d).2.2.1
      (env d).2.2.2
    obtain ⟨rs, hrs, hlen⟩ := ih
    refine ⟨r :: rs, ?_, by simp [hlen]⟩
    unfold tick
    rw [hr, hrs]
    rfl

/-- C5: pushData never lets an exception reach its caller: for every
transport outcome it returns a result; when the transport fails, the
failure is absorbed into an error log line carrying the device name,
device ID and failure reason; hence a fleet-wide tick always completes,
with one result per fleet member. -/
theorem pushData_absorbs_failures (d : SimulatedDevice) (uT uH : ℚ)
    (ts : String) (post : TelemetryPayload → String → Except String Unit)
    (msg : String) (fleet : List SimulatedDevice)
    (env : SimulatedDevice →
      ℚ × ℚ × String × (TelemetryPayload → String → Except String Unit)) :
    (∃ r, pushData d uT uH ts post = Except.ok r) ∧
      pushData d uT uH ts (fun _ _ => Except.error msg)
        = Except.ok ((generateTelemetry d uT uH ts).1,
            LogLine.sendError d.config.name d.config.deviceId msg) ∧
      ∃ rs, tick fleet env = Except.ok rs ∧ rs.length = fleet.length :=
  ⟨pushData_ok d uT uH ts post, rfl, tick_ok fleet env⟩

/-- The devices list built by the init fold: the input list plus, for
each config whose token resolves, one constructed device in order. -/
theorem initStep_foldl_fst (env : String → Option String)
    (rand : DeviceConfig → ℚ) (configs : List DeviceConfig) :
    ∀ acc : List SimulatedDevice × List LogLine,
      (configs.foldl (initStep env rand) acc).1
        = acc.1 ++ (configs.filter
            (fun c => (env (envTokenKey c.deviceId)).isSome)).map
              (fun c => mkSimulatedDevice c
                ((env (envTokenKey c.deviceId)).getD "") (rand c)) := by
  induction configs with
  | nil => intro acc; simp
  | cons c rest ih =>
    intro acc
    rw [List.foldl_cons]
    cases hc : env (envTokenKey c.deviceId) with
    | none =>
      rw [ih]
      simp [initStep, hc]
    | some tok =>
      rw [ih]
      simp [initStep, hc]

/-- The warnings list built by the init fold: the input list plus one
warnNoToken line, in order, for each config whose token is absent. -/
theorem initStep_foldl_snd (env : String → Option String)
    (rand : DeviceConfig → ℚ) (configs : List DeviceConfig) :
    ∀ acc : List SimulatedDevice × List LogLine,
      (configs.foldl (initStep env rand) acc).2
        = acc.2 ++ (configs.filter
            (fun c => (env (envTokenKey c.deviceId)).isNone)).map
              (fun c => LogLine.warnNoToken c.deviceId
                (envTokenKey c.deviceId)) := by
  induction configs with
  | nil => intro acc; simp
  | cons c rest ih =>
    intro acc
    rw [List.foldl_cons]
    cases hc : env (envTokenKey c.deviceId) with
    | none =>
      rw [ih]
      simp [initStep, hc]
    | some tok =>
      rw [ih]
      simp [initStep, hc]

/-- C6: a registry entry whose TOKEN_DEVICE_(N) variable is absent
contributes no device to the fleet (no fleet member carries its device
ID), a warning naming its device ID is logged, and the activeDevices
value of the health handler counts exactly the entries whose tokens
resolved, so the excluded device is never counted. -/
theorem credential_exclusion (env : String → Option String)
    (rand : DeviceConfig → ℚ) (configs : List DeviceConfig)
    (c : DeviceConfig) (hc : c ∈ configs)
    (hnone : env (envTokenKey c.deviceId) = none) :
    (∀ d ∈ (initDevices env rand configs).1, d.config.deviceId ≠ c.deviceId) ∧
      LogLine.warnNoToken c.deviceId (envTokenKey c.deviceId)
        ∈ (initDevices env rand configs).2 ∧
      (healthResponse (initDevices env rand configs).1).2
        = (configs.filter
            (fun x => (env (envTokenKey x.deviceId)).isSome)).length := by
  have hfst := initStep_foldl_fst env rand configs ([], [])
  have hsnd := initStep_foldl_snd env rand configs ([], [])
  unfold initDevices at *
  refine ⟨?_, ?_, ?_⟩
  · intro d hd heq
    rw [hfst] at hd
    simp only [List.nil_append, List.mem_map, List.mem_filter] at hd
    obtain ⟨x, ⟨hx, hxsome⟩, hdx⟩ := hd
    have hxc : x.deviceId = c.deviceId := by
      have : d.config = x := by rw [← hdx]; rfl
      rw [this] at heq
      exact heq
    rw [hxc, hnone] at hxsome
    simp at hxsome
  · rw [hsnd]
    simp only [List.nil_append, List.mem_map, List.mem_filter]
    exact ⟨c, ⟨hc, by rw [hnone]; rfl⟩, rfl⟩
  · show (configs.foldl (initStep env rand) ([], [])).1.length = _
    rw [hfst]
    simp

theorem credential_exclusion_witness :
    (∀ d ∈ (initDevices
        (fun k => if k = "TOKEN_DEVICE_1" then some "t1" else none)
        (fun _ => 0)
        [⟨1, "s1", "n1", "l1"⟩, ⟨2, "s2", "n2", "l2"⟩]).1,
      d.config.deviceId ≠ (⟨2, "s2", "n2", "l2"⟩ : DeviceConfig).deviceId) ∧
      LogLine.warnNoToken (⟨2, "s2", "n2", "l2"⟩ : DeviceConfig).deviceId
          (envTokenKey (⟨2, "s2", "n2", "l2"⟩ : DeviceConfig).deviceId)
        ∈ (initDevices
            (fun k => if k = "TOKEN_DEVICE_1" then some "t1" else none)
            (fun _ => 0)
            [⟨1, "s1", "n1", "l1"⟩, ⟨2, "s2", "n2", "l2"⟩]).2 ∧
      (healthResponse (initDevices
          (fun k => if k = "TOKEN_DEVICE_1" then some "t1" else none)
          (fun _ => 0)
          [⟨1, "s1", "n1", "l1"⟩, ⟨2, "s2", "n2", "l2"⟩]).1).2
        = ([⟨1, "s1", "n1", "l1"⟩, ⟨2, "s2", "n2", "l2"⟩].filter
            (fun x : DeviceConfig =>
              ((fun k => if k = "TOKEN_DEVICE_1" then some "t1" else none)
                (envTokenKey x.deviceId)).isSome)).length :=
  credential_exclusion _ _ _ _ (by simp) (by decide)

/-- C7: when reading devices.json fails, or every successful read
yields text that fails to parse, startup produces a process-level error
and no RunningSystem: no device is constructed, the health route is not
served and no tick is scheduled. -/
theorem config_load_fatal (readFile : Except String String)
    (parse : String → Except String (List DeviceConfig))
    (env : String → Option String) (rand : DeviceConfig → ℚ)
    (h : (∃ e, readFile = Except.error e) ∨
      ∀ raw, readFile = Except.ok raw → ∃ e, parse raw = Except.error e) :
    (∃ e, startup readFile parse env rand = Except.error e) ∧
      ∀ sys, startup readFile parse env rand ≠ Except.ok sys := by
  have herr : ∃ e, startup readFile parse env rand = Except.error e := by
    cases readFile with
    | error e => exact ⟨e, rfl⟩
    | ok raw =>
      rcases h with ⟨e, he⟩ | hp
      · exact absurd he (by simp)
      · obtain ⟨e, hpe⟩ := hp raw rfl
        refine ⟨e, ?_⟩
        unfold startup
        dsimp only
        rw [hpe]
  obtain ⟨e, he⟩ := herr
  exact ⟨⟨e, he⟩, fun sys hsys => by rw [he] at hsys; exact Except.noConfusion hsys⟩

theorem config_load_fatal_witness :
    (∃ e, startup (Except.error "ENOENT")
        (fun _ => Except.ok []) (fun _ => none) (fun _ => 0)
        = Except.error e) ∧
      ∀ sys, startup (Except.error "ENOENT")
        (fun _ => Except.ok []) (fun _ => none) (fun _ => 0)
        ≠ Except.ok sys :=
  config_load_fatal _ _ _ _ (Or.inl ⟨"ENOENT", rfl⟩)
